import Mathlib

/-!
Verification of the typed resource-model layer of a Kubernetes client
(`K8sNamespace`, `K8sPersistentVolume`): property accessors over a JSON-like
resource model, validated volume-type selection, CRUD refresh behaviour and
the readiness polling loop.

The Python sources are embedded shallowly: objects become structures, property
setters become functions returning the updated structure, a raised exception
becomes an explicit error value.  Python `dict`s become association lists,
`time.time()` becomes an explicit elapsed-seconds observation sequence, the
HTTP transport becomes an explicit sequence of server-returned documents.
-/

namespace K8sPy

/-! ## Python dict operations over association lists -/

/-- `k in d` for a Python dict modelled as an association list. -/
def dictContains {α : Type} (l : List (String × α)) (k : String) : Bool :=
  l.any (fun p => p.1 == k)

/-- `d[k]` as an `Option`: the value of the first binding of `k`. -/
def dictLookup {α : Type} : List (String × α) → String → Option α
  | [], _ => none
  | (k', v) :: rest, k => if k' = k then some v else dictLookup rest k

/-- `d[k] = v`: replace the binding of `k`, or append a new one. -/
def dictSet {α : Type} : List (String × α) → String → α → List (String × α)
  | [], k, v => [(k, v)]
  | (k', v') :: rest, k, v =>
      if k' = k then (k, v) :: rest else (k', v') :: dictSet rest k v

/-- Update the value bound to `k` in place (models mutating the object the
dict entry points at). -/
def dictModify {α : Type} : List (String × α) → String → (α → α) → List (String × α)
  | [], _, _ => []
  | (k', v) :: rest, k, f =>
      if k' = k then (k', f v) :: dictModify rest k f
      else (k', v) :: dictModify rest k f

/-- Python `"{}".format(x)` of an optional string: `None` prints as `"None"`. -/
def formatOpt : Option String → String
  | some s => s
  | none => "None"

/-! ## Volume sources

Modelled from the spec: the `kubernetes.models.v1.Volume` model class and the
per-variant source classes are not among the shown sources.  Spec section 3
describes the volume source as "a tagged union over volume-type variants (host
path, AWS EBS, GCE persistent disk, NFS, etc., excluding types invalid for
persistent volumes: ephemeral-dir, git-repo, secret)", and the accessor
comments in `K8sPersistentVolume.py` fix which attribute each variant carries:
`path` (hostPath), `volume_id`/`fs_type` (AWS), `pd_name`/`fs_type` (GCE),
`server`/`path` (NFS). -/

/-- One volume-source variant; each field starts out unset (`none`),
modelling the "empty/default value for that source type". -/
inductive VolumeSource where
  | emptyDir : VolumeSource
  | gitRepo : VolumeSource
  | secret : VolumeSource
  | hostPath (path : Option String) : VolumeSource
  | awsElasticBlockStore (volume_id : Option String) (fs_type : Option String) : VolumeSource
  | gcePersistentDisk (pd_name : Option String) (fs_type : Option String) : VolumeSource
  | nfs (server : Option String) (path : Option String) : VolumeSource
  deriving DecidableEq, Repr

/-- Python `hasattr(source, f)`: does this variant carry attribute `f`? -/
def VolumeSource.hasField : VolumeSource → String → Bool
  | .hostPath _, f => f == "path"
  | .awsElasticBlockStore _ _, f => f == "volume_id" || f == "fs_type"
  | .gcePersistentDisk _ _, f => f == "pd_name" || f == "fs_type"
  | .nfs _ _, f => f == "server" || f == "path"
  | _, _ => false

/-- Python `getattr(source, f)`: the stored value of attribute `f`. -/
def VolumeSource.getField : VolumeSource → String → Option String
  | .hostPath p, "path" => p
  | .awsElasticBlockStore vid _, "volume_id" => vid
  | .awsElasticBlockStore _ ft, "fs_type" => ft
  | .gcePersistentDisk pd _, "pd_name" => pd
  | .gcePersistentDisk _ ft, "fs_type" => ft
  | .nfs s _, "server" => s
  | .nfs _ p, "path" => p
  | _, _ => none

/-- Python `setattr(source, f, v)` on a variant that carries `f`. -/
def VolumeSource.setField : VolumeSource → String → Option String → VolumeSource
  | .hostPath _, "path", v => .hostPath v
  | .awsElasticBlockStore _ ft, "volume_id", v => .awsElasticBlockStore v ft
  | .awsElasticBlockStore vid _, "fs_type", v => .awsElasticBlockStore vid v
  | .gcePersistentDisk _ ft, "pd_name", v => .gcePersistentDisk v ft
  | .gcePersistentDisk pd _, "fs_type", v => .gcePersistentDisk pd v
  | .nfs _ p, "server", v => .nfs v p
  | .nfs srv _, "path", v => .nfs srv v
  | s, _, _ => s

/-- Modelled from the spec: `Volume.VOLUME_TYPES_TO_SOURCE_MAP`, the full
volume-type vocabulary mapping each type name to its (default) source. -/
def VOLUME_TYPES_TO_SOURCE_MAP : List (String × VolumeSource) :=
  [("emptyDir", .emptyDir),
   ("gitRepo", .gitRepo),
   ("secret", .secret),
   ("hostPath", .hostPath none),
   ("awsElasticBlockStore", .awsElasticBlockStore none none),
   ("gcePersistentDisk", .gcePersistentDisk none none),
   ("nfs", .nfs none none)]

/-- Modelled from the spec: `Volume.vol_type_to_source(t)`, the default source
object for a volume type. -/
def vol_type_to_source (t : String) : Option VolumeSource :=
  dictLookup VOLUME_TYPES_TO_SOURCE_MAP t

/-- `filter(lambda x: x not in ['emptyDir', 'gitRepo', 'secret'],
Volume.VOLUME_TYPES_TO_SOURCE_MAP.keys())` (a Python 2 `filter`, hence a
list usable for repeated membership tests). -/
def VALID_VOLUME_TYPES : List String :=
  (VOLUME_TYPES_TO_SOURCE_MAP.map Prod.fst).filter
    (fun x => !(["emptyDir", "gitRepo", "secret"].contains x))

/-! ## The PersistentVolume model and its controller -/

/-- `model.metadata` of a PersistentVolume.  Label values are `Option String`
because the `name` setter stores the (possibly `None`) name argument. -/
structure PVMeta where
  name : Option String
  labels : List (String × Option String)
  annots : List (String × Option String)
  deriving DecidableEq, Repr

/-- `model.spec` of a PersistentVolume: `slots` holds the variant attributes
`setattr(self.model.spec, t, …)` has populated. -/
structure PVSpec where
  slots : List (String × VolumeSource)
  access_modes : Option (List String)
  capacity : List (String × String)
  deriving DecidableEq, Repr

/-- `model.status` of a PersistentVolume. -/
structure PVStatus where
  phase : Option String
  deriving DecidableEq, Repr

/-- The `PersistentVolume` model object. -/
structure PersistentVolume where
  metadata : PVMeta
  spec : PVSpec
  status : PVStatus
  deriving DecidableEq, Repr

/-- A freshly constructed `PersistentVolume()`: nothing populated yet. -/
def PersistentVolume.empty : PersistentVolume :=
  { metadata := { name := none, labels := [], annots := [] },
    spec := { slots := [], access_modes := none, capacity := [] },
    status := { phase := none } }

/-- The error kinds the controller raises synchronously
(`SyntaxError` resp. `NotImplementedError` in the source). -/
inductive K8sError where
  | invalidArgument (msg : String) : K8sError
  | unsupportedForVariant : K8sError
  deriving DecidableEq, Repr

/-- The `K8sPersistentVolume` controller: its configuration (opaque here),
the `_type` discriminator and the owned model. -/
structure K8sPersistentVolume where
  config : Option String
  _type : Option String
  model : PersistentVolume
  deriving DecidableEq, Repr

/-- The `name` setter: `self.model.metadata.name = name;
self.model.metadata.labels['name'] = name`. -/
def K8sPersistentVolume.setName (pv : K8sPersistentVolume) (n : Option String) :
    K8sPersistentVolume :=
  { pv with model :=
      { pv.model with metadata :=
          { pv.model.metadata with
              name := n,
              labels := dictSet pv.model.metadata.labels "name" n } } }

/-- The error the `type` setter raises:
`SyntaxError('K8sPersistentVolume: type: [ {} ] is invalid.'.format(t))`. -/
def typeErr (t : Option String) : K8sError :=
  .invalidArgument
    ("K8sPersistentVolume: type: [ " ++ formatOpt t ++ " ] is invalid.")

/-- The `type` setter.  The second component is the raised error, if any; the
first is the controller afterwards (unchanged when the setter raises, since
the membership check precedes every mutation). -/
def K8sPersistentVolume.setType (pv : K8sPersistentVolume) (t : Option String) :
    K8sPersistentVolume × Option K8sError :=
  match t with
  | none => (pv, some (typeErr none))
  | some s =>
      if VALID_VOLUME_TYPES.contains s then
        match vol_type_to_source s with
        | some src =>
            ({ pv with
                _type := some s,
                model :=
                  { pv.model with spec :=
                      { pv.model.spec with
                          slots := dictSet pv.model.spec.slots s src } } },
             none)
        | none => (pv, some (typeErr (some s)))
      else (pv, some (typeErr (some s)))

/-- `K8sPersistentVolume.__init__(config, name, type)`: builds an empty model,
runs the `name` setter, then the validating `type` setter; a raise from the
latter aborts construction. -/
def K8sPersistentVolume.init (config : Option String) (name : Option String)
    (t : Option String) : Except K8sError K8sPersistentVolume :=
  let pv0 : K8sPersistentVolume :=
    { config := config, _type := none, model := PersistentVolume.empty }
  let pv1 := pv0.setName name
  match pv1.setType t with
  | (pv2, none) => .ok pv2
  | (_, some e) => .error e

/-- The `source` property: `getattr(self.model.spec, self._type, None)` — the
variant slot named by the active discriminator, or `None`. -/
def K8sPersistentVolume.source (pv : K8sPersistentVolume) : Option VolumeSource :=
  pv._type.bind (fun t => dictLookup pv.model.spec.slots t)

/-- `hasattr(self.source, f)`; `hasattr(None, f)` is false. -/
def sourceHasField : Option VolumeSource → String → Bool
  | none, _ => false
  | some s, f => s.hasField f

/-- `self.source.f` once `hasattr` has succeeded. -/
def sourceGetField : Option VolumeSource → String → Option String
  | none, _ => none
  | some s, f => s.getField f

/-- `self.source.f = v`: mutates the source object the active slot points at,
i.e. rewrites that slot of `spec`. -/
def K8sPersistentVolume.updateSourceField (pv : K8sPersistentVolume)
    (f : String) (v : Option String) : K8sPersistentVolume :=
  match pv._type with
  | none => pv
  | some t =>
      { pv with model :=
          { pv.model with spec :=
              { pv.model.spec with
                  slots := dictModify pv.model.spec.slots t
                    (fun s => VolumeSource.setField s f v) } } }

/-- The `host_path` getter: guard `hasattr(self.source, 'path')`, then read. -/
def K8sPersistentVolume.host_path (pv : K8sPersistentVolume) :
    Except K8sError (Option String) :=
  if sourceHasField pv.source "path" then .ok (sourceGetField pv.source "path")
  else .error .unsupportedForVariant

/-- The `host_path` setter. -/
def K8sPersistentVolume.set_host_path (pv : K8sPersistentVolume)
    (p : Option String) : K8sPersistentVolume × Option K8sError :=
  if sourceHasField pv.source "path" then (pv.updateSourceField "path" p, none)
  else (pv, some .unsupportedForVariant)

/-- The `volume_id` getter (AWS). -/
def K8sPersistentVolume.volume_id (pv : K8sPersistentVolume) :
    Except K8sError (Option String) :=
  if sourceHasField pv.source "volume_id" then
    .ok (sourceGetField pv.source "volume_id")
  else .error .unsupportedForVariant

/-- The `volume_id` setter. -/
def K8sPersistentVolume.set_volume_id (pv : K8sPersistentVolume)
    (vid : Option String) : K8sPersistentVolume × Option K8sError :=
  if sourceHasField pv.source "volume_id" then
    (pv.updateSourceField "volume_id" vid, none)
  else (pv, some .unsupportedForVariant)

/-- The `pd_name` getter (GCE). -/
def K8sPersistentVolume.pd_name (pv : K8sPersistentVolume) :
    Except K8sError (Option String) :=
  if sourceHasField pv.source "pd_name" then
    .ok (sourceGetField pv.source "pd_name")
  else .error .unsupportedForVariant

/-- The `pd_name` setter. -/
def K8sPersistentVolume.set_pd_name (pv : K8sPersistentVolume)
    (pd : Option String) : K8sPersistentVolume × Option K8sError :=
  if sourceHasField pv.source "pd_name" then
    (pv.updateSourceField "pd_name" pd, none)
  else (pv, some .unsupportedForVariant)

/-- The `fs_type` getter (AWS, GCE). -/
def K8sPersistentVolume.fs_type (pv : K8sPersistentVolume) :
    Except K8sError (Option String) :=
  if sourceHasField pv.source "fs_type" then
    .ok (sourceGetField pv.source "fs_type")
  else .error .unsupportedForVariant

/-- The `fs_type` setter. -/
def K8sPersistentVolume.set_fs_type (pv : K8sPersistentVolume)
    (t : Option String) : K8sPersistentVolume × Option K8sError :=
  if sourceHasField pv.source "fs_type" then
    (pv.updateSourceField "fs_type" t, none)
  else (pv, some .unsupportedForVariant)

/-- The `nfs_server` getter: the guarded attribute is `server`. -/
def K8sPersistentVolume.nfs_server (pv : K8sPersistentVolume) :
    Except K8sError (Option String) :=
  if sourceHasField pv.source "server" then
    .ok (sourceGetField pv.source "server")
  else .error .unsupportedForVariant

/-- The `nfs_server` setter. -/
def K8sPersistentVolume.set_nfs_server (pv : K8sPersistentVolume)
    (s : Option String) : K8sPersistentVolume × Option K8sError :=
  if sourceHasField pv.source "server" then
    (pv.updateSourceField "server" s, none)
  else (pv, some .unsupportedForVariant)

/-- The `nfs_path` getter: the guarded attribute is `path`. -/
def K8sPersistentVolume.nfs_path (pv : K8sPersistentVolume) :
    Except K8sError (Option String) :=
  if sourceHasField pv.source "path" then .ok (sourceGetField pv.source "path")
  else .error .unsupportedForVariant

/-- The `nfs_path` setter. -/
def K8sPersistentVolume.set_nfs_path (pv : K8sPersistentVolume)
    (p : Option String) : K8sPersistentVolume × Option K8sError :=
  if sourceHasField pv.source "path" then (pv.updateSourceField "path" p, none)
  else (pv, some .unsupportedForVariant)

/-- The six variant-specific accessors of `K8sPersistentVolume`. -/
inductive PVAccessor where
  | host_path : PVAccessor
  | volume_id : PVAccessor
  | pd_name : PVAccessor
  | fs_type : PVAccessor
  | nfs_server : PVAccessor
  | nfs_path : PVAccessor
  deriving DecidableEq, Repr

/-- The source attribute each accessor guards with `hasattr` and reads/writes. -/
def PVAccessor.field : PVAccessor → String
  | .host_path => "path"
  | .volume_id => "volume_id"
  | .pd_name => "pd_name"
  | .fs_type => "fs_type"
  | .nfs_server => "server"
  | .nfs_path => "path"

/-- Dispatch a property read to the corresponding getter. -/
def K8sPersistentVolume.readAccessor (pv : K8sPersistentVolume) :
    PVAccessor → Except K8sError (Option String)
  | .host_path => pv.host_path
  | .volume_id => pv.volume_id
  | .pd_name => pv.pd_name
  | .fs_type => pv.fs_type
  | .nfs_server => pv.nfs_server
  | .nfs_path => pv.nfs_path

/-- Dispatch a property write to the corresponding setter. -/
def K8sPersistentVolume.writeAccessor (pv : K8sPersistentVolume) :
    PVAccessor → Option String → K8sPersistentVolume × Option K8sError
  | .host_path, v => pv.set_host_path v
  | .volume_id, v => pv.set_volume_id v
  | .pd_name, v => pv.set_pd_name v
  | .fs_type, v => pv.set_fs_type v
  | .nfs_server, v => pv.set_nfs_server v
  | .nfs_path, v => pv.set_nfs_path v

/-! ## The readiness polling loop

`_wait_for_available` runs against a server whose `get()` responses form a
sequence `docs : Nat → PersistentVolume` (the parsed document of the i-th
`get()`), while `elapsed i` is the value `time.time() - start_time` observed
at the timeout check following the i-th `get()`.  `model` is the local model
when the loop is entered and `i` counts the `get()` calls made so far; `fuel`
bounds the number of loop iterations modelled (the Python loop itself may
spin forever when the clock never reaches the timeout). -/

def READY_WAIT_TIMEOUT_SECONDS : Nat := 60

/-- How the loop hands control back: normal return after `polls` calls to
`get()` (the local model then being the last response), or a
`TimedOutException` with its message. -/
inductive WaitOutcome where
  | success (polls : Nat) (model : PersistentVolume) : WaitOutcome
  | timedOut (polls : Nat) (msg : String) : WaitOutcome
  deriving DecidableEq, Repr

/-- `'Timed out waiting on readiness of PersistentVolume: [ {} ]'.format(self.name)`;
`self.name` reads `metadata.name` of the model the last `get()` installed. -/
def timedOutMsg (name : Option String) : String :=
  "Timed out waiting on readiness of PersistentVolume: [ " ++ formatOpt name ++ " ]"

/-- `K8sPersistentVolume._wait_for_available`, one loop iteration per unit of
fuel: test the local phase, `get()`, then the timeout check. -/
def wait_for_available (docs : Nat → PersistentVolume) (elapsed : Nat → Nat)
    (model : PersistentVolume) (i : Nat) : Nat → Option WaitOutcome
  | 0 => none
  | fuel + 1 =>
      if model.status.phase = some "Available" then
        some (.success i model)
      else
        if READY_WAIT_TIMEOUT_SECONDS ≤ elapsed i then
          some (.timedOut (i + 1) (timedOutMsg (docs i).metadata.name))
        else
          wait_for_available docs elapsed (docs i) (i + 1) fuel

/-! ## The Namespace model and its controller -/

/-- `model.metadata` of a Namespace (labels and annotations as parsed from a
server document: string-valued maps). -/
structure NamespaceMeta where
  name : Option String
  labels : List (String × String)
  annots : List (String × String)
  deriving DecidableEq, Repr

/-- `model.spec` of a Namespace. -/
structure NamespaceSpec where
  finalizers : List String
  deriving DecidableEq, Repr

/-- `model.status` of a Namespace. -/
structure NamespaceStatus where
  phase : Option String
  deriving DecidableEq, Repr

/-- The `Namespace` model object. -/
structure NamespaceModel where
  metadata : NamespaceMeta
  spec : NamespaceSpec
  status : NamespaceStatus
  deriving DecidableEq, Repr

/-- A server-returned Namespace document, already shaped (the JSON layer is
outside this excerpt). -/
structure NamespaceDoc where
  name : Option String
  labels : List (String × String)
  annots : List (String × String)
  finalizers : List String
  phase : Option String
  deriving DecidableEq, Repr

/-- Modelled from the spec: `Namespace(doc)` parses a server document into a
fresh model, field by field ("replaced wholesale by re-parsing the server
response", spec section 3). -/
def NamespaceModel.ofDoc (d : NamespaceDoc) : NamespaceModel :=
  { metadata := { name := d.name, labels := d.labels, annots := d.annots },
    spec := { finalizers := d.finalizers },
    status := { phase := d.phase } }

/-- The `K8sNamespace` controller. -/
structure K8sNamespace where
  config : Option String
  model : NamespaceModel
  deriving DecidableEq, Repr

/-- The `name` property (read): `self.model.metadata.name`. -/
def K8sNamespace.name (ns : K8sNamespace) : Option String :=
  ns.model.metadata.name

/-- `K8sNamespace.get()`: parse the fetched document and replace `model`
wholesale.  `serverDoc` is the document `self.get_model()` returned; the
function returns the controller (`return self`). -/
def K8sNamespace.getOp (ns : K8sNamespace) (serverDoc : NamespaceDoc) :
    K8sNamespace :=
  { ns with model := NamespaceModel.ofDoc serverDoc }

/-- `K8sNamespace.create()`: submit the current model (transport, external),
then `self.get()`; `serverDoc` is the document the follow-up `get()` fetches. -/
def K8sNamespace.createOp (ns : K8sNamespace) (serverDoc : NamespaceDoc) :
    K8sNamespace :=
  ns.getOp serverDoc

/-- `K8sNamespace.update()`: submit the full model as replacement, then
`self.get()`. -/
def K8sNamespace.updateOp (ns : K8sNamespace) (serverDoc : NamespaceDoc) :
    K8sNamespace :=
  ns.getOp serverDoc

/-- `K8sNamespace.get_label(k)`: `if k in labels: return labels[k]; return None`. -/
def K8sNamespace.get_label (ns : K8sNamespace) (k : String) : Option String :=
  if dictContains ns.model.metadata.labels k then
    dictLookup ns.model.metadata.labels k
  else none

/-- `K8sNamespace.get_annotation(k)`: the same over the annotations map. -/
def K8sNamespace.get_annotation (ns : K8sNamespace) (k : String) : Option String :=
  if dictContains ns.model.metadata.annots k then
    dictLookup ns.model.metadata.annots k
  else none

/-- `K8sNamespace.list()`: one fresh controller per listed document, sharing
the caller's configuration, each model replaced wholesale by the parsed
element; server order is preserved. -/
def K8sNamespace.listOp (ns : K8sNamespace) (docs : List NamespaceDoc) :
    List K8sNamespace :=
  docs.map (fun x => { config := ns.config, model := NamespaceModel.ofDoc x })

/-- `K8sNamespace.get_by_name(config, name)`: list everything, keep the exact
name matches, return the first or `None` (`filtered[0] if filtered`). `docs`
is the server's listing. -/
def K8sNamespace.get_by_name (config : Option String) (name : Option String)
    (docs : List NamespaceDoc) : Option K8sNamespace :=
  let self : K8sNamespace :=
    { config := config,
      model := { metadata := { name := name, labels := [], annots := [] },
                 spec := { finalizers := [] },
                 status := { phase := none } } }
  let namespaces := self.listOp docs
  let filtered := namespaces.filter (fun x => x.name == name)
  filtered.head?

/-! ## Concrete states used by the evaluation witnesses -/

/-- A controller as freshly allocated, before `__init__` runs the setters. -/
def pvFresh : K8sPersistentVolume :=
  { config := none, _type := none, model := PersistentVolume.empty }

/-- The result of `K8sPersistentVolume(config=None, name='v', type='hostPath')`. -/
def pvHostEx : K8sPersistentVolume :=
  { config := none,
    _type := some "hostPath",
    model :=
      { metadata := { name := some "v", labels := [("name", some "v")], annots := [] },
        spec := { slots := [("hostPath", .hostPath none)],
                  access_modes := none, capacity := [] },
        status := { phase := none } } }

/-- The result of `K8sPersistentVolume(config=None, name='v', type='nfs')`. -/
def pvNfsEx : K8sPersistentVolume :=
  { config := none,
    _type := some "nfs",
    model :=
      { metadata := { name := some "v", labels := [("name", some "v")], annots := [] },
        spec := { slots := [("nfs", .nfs none none)],
                  access_modes := none, capacity := [] },
        status := { phase := none } } }

/-- A server document for a PersistentVolume still provisioning. -/
def pendingPV : PersistentVolume :=
  { metadata := { name := some "pv0", labels := [], annots := [] },
    spec := { slots := [], access_modes := none, capacity := [] },
    status := { phase := some "Pending" } }

/-- The same volume once provisioned. -/
def availPV : PersistentVolume :=
  { pendingPV with status := { phase := some "Available" } }

/-- A Namespace listing element named `a`. -/
def nsDocA : NamespaceDoc :=
  { name := some "a", labels := [("k", "v")], annots := [], finalizers := [],
    phase := some "Active" }

/-- A second Namespace listing element, also named `a`. -/
def nsDocA2 : NamespaceDoc :=
  { name := some "a", labels := [], annots := [], finalizers := [],
    phase := some "Active" }

/-- A Namespace listing element named `b`. -/
def nsDocB : NamespaceDoc :=
  { name := some "b", labels := [], annots := [], finalizers := [],
    phase := some "Active" }

/-! ## Association-list lemmas -/

theorem dictContains_eq_isSome {α : Type} (l : List (String × α)) (k : String) :
    dictContains l k = (dictLookup l k).isSome := by
  induction l with
  | nil => rfl
  | cons p rest ih =>
      obtain ⟨k', v⟩ := p
      by_cases h : k' = k
      · simp [dictContains, dictLookup, h]
      · have hb : (k' == k) = false := by simp [h]
        simp only [dictContains, List.any_cons, dictLookup] at ih ⊢
        simp [hb, h, ih]

theorem dictLookup_dictSet_self {α : Type} (l : List (String × α)) (k : String)
    (v : α) : dictLookup (dictSet l k v) k = some v := by
  induction l with
  | nil => simp [dictSet, dictLookup]
  | cons p rest ih =>
      obtain ⟨k', v'⟩ := p
      by_cases h : k' = k
      · simp [dictSet, dictLookup, h]
      · simp [dictSet, dictLookup, h, ih]

theorem dictLookup_dictSet_other {α : Type} (l : List (String × α))
    (k k' : String) (v : α) (h : k' ≠ k) :
    dictLookup (dictSet l k v) k' = dictLookup l k' := by
  induction l with
  | nil => simp [dictSet, dictLookup, Ne.symm h]
  | cons p rest ih =>
      obtain ⟨k0, v0⟩ := p
      by_cases h0 : k0 = k
      · subst h0
        simp [dictSet, dictLookup, Ne.symm h]
      · simp [dictSet, dictLookup, h0, ih]

theorem dictLookup_dictModify_self {α : Type} (l : List (String × α))
    (k : String) (f : α → α) :
    dictLookup (dictModify l k f) k = (dictLookup l k).map f := by
  induction l with
  | nil => rfl
  | cons p rest ih =>
      obtain ⟨k', v⟩ := p
      by_cases h : k' = k
      · simp [dictModify, dictLookup, h]
      · simp [dictModify, dictLookup, h, ih]

theorem dictLookup_dictModify_other {α : Type} (l : List (String × α))
    (k k' : String) (f : α → α) (h : k' ≠ k) :
    dictLookup (dictModify l k f) k' = dictLookup l k' := by
  induction l with
  | nil => rfl
  | cons p rest ih =>
      obtain ⟨k0, v⟩ := p
      by_cases h0 : k0 = k
      · subst h0
        simp [dictModify, dictLookup, Ne.symm h, ih]
      · simp [dictModify, dictLookup, h0, ih]

/-- The first element of a filtered concatenation whose prefix fails the
predicate and whose pivot passes it. -/
theorem filter_append_head {α : Type} (l1 l2 : List α) (x : α) (p : α → Bool)
    (h1 : ∀ y ∈ l1, p y = false) (hx : p x = true) :
    ((l1 ++ x :: l2).filter p).head? = some x := by
  induction l1 with
  | nil => simp [List.filter_cons, hx]
  | cons a rest ih =>
      have ha : p a = false := h1 a (List.mem_cons_self a rest)
      simp only [List.cons_append, List.filter_cons, ha]
      exact ih (fun y hy => h1 y (List.mem_cons_of_mem a hy))

/-! ## Claim theorems -/

/-- C6: `get_label` and `get_annotation` are total (they are plain functions,
never raising) and return exactly the mapped value for a present key and an
absent result for an absent key — which is precisely the association-list
lookup. -/
theorem C6_get_label_get_ann (ns : K8sNamespace) (k : String) :
    K8sNamespace.get_label ns k = dictLookup ns.model.metadata.labels k ∧
    K8sNamespace.get_annotation ns k = dictLookup ns.model.metadata.annots k := by
  constructor
  · unfold K8sNamespace.get_label
    rw [dictContains_eq_isSome]
    cases h : dictLookup ns.model.metadata.labels k <;> simp [h]
  · unfold K8sNamespace.get_annotation
    rw [dictContains_eq_isSome]
    cases h : dictLookup ns.model.metadata.annots k <;> simp [h]

/-- C7: `get_by_name` returns an absent result on an empty listing; on any
listing it returns the first exact-name match in server order (covering both
the single-match and the multiple-match case). -/
theorem C7_get_by_name (config name : Option String) (docs : List NamespaceDoc) :
    (docs = [] → K8sNamespace.get_by_name config name docs = none) ∧
    (∀ pre d post, docs = pre ++ d :: post →
        (∀ p ∈ pre, p.name ≠ name) → d.name = name →
        K8sNamespace.get_by_name config name docs =
          some { config := config, model := NamespaceModel.ofDoc d }) := by
  constructor
  · intro h
    subst h
    rfl
  · intro pre d post hdocs hpre hd
    subst hdocs
    simp only [K8sNamespace.get_by_name, K8sNamespace.listOp, List.map_append,
      List.map_cons]
    apply filter_append_head
    · intro y hy
      simp only [List.mem_map] at hy
      obtain ⟨p, hp, rfl⟩ := hy
      simpa [K8sNamespace.name, NamespaceModel.ofDoc] using hpre p hp
    · simpa [K8sNamespace.name, NamespaceModel.ofDoc] using hd

/-- Witness for C7: the empty listing gives an absent result, and on the
listing `[b, a, a2]` looking up `a` yields the first of the two matches. -/
theorem C7_witness :
    K8sNamespace.get_by_name none (some "a") [] = none ∧
    K8sNamespace.get_by_name none (some "a") [nsDocB, nsDocA, nsDocA2] =
      some { config := none, model := NamespaceModel.ofDoc nsDocA } := by
  constructor
  · exact (C7_get_by_name none (some "a") []).1 rfl
  · exact (C7_get_by_name none (some "a") [nsDocB, nsDocA, nsDocA2]).2
      [nsDocB] nsDocA [nsDocA2] rfl (by decide) (by decide)

/-- C8: a successful `create()` (likewise `update()`) refreshes the model to
exactly the parse of the server's current document — independently of the
prior local model, never a partial merge — and hands back the controller. -/
theorem C8_create_update_refresh (ns : K8sNamespace) (d : NamespaceDoc) :
    K8sNamespace.createOp ns d = { ns with model := NamespaceModel.ofDoc d } ∧
    K8sNamespace.updateOp ns d = { ns with model := NamespaceModel.ofDoc d } ∧
    (∀ m : NamespaceModel,
      K8sNamespace.createOp { ns with model := m } d = K8sNamespace.createOp ns d ∧
      K8sNamespace.updateOp { ns with model := m } d = K8sNamespace.updateOp ns d) :=
  ⟨rfl, rfl, fun _ => ⟨rfl, rfl⟩⟩

/-- C10: the `name` setter writes `metadata.name` and the metadata label under
key `name`, and changes nothing else of the controller or its model. -/
theorem C10_name_setter (pv : K8sPersistentVolume) (n : Option String) :
    (pv.setName n).model.metadata.name = n ∧
    dictLookup (pv.setName n).model.metadata.labels "name" = some n ∧
    (pv.setName n).config = pv.config ∧
    (pv.setName n)._type = pv._type ∧
    (pv.setName n).model.spec = pv.model.spec ∧
    (pv.setName n).model.status = pv.model.status ∧
    (pv.setName n).model.metadata.annots = pv.model.metadata.annots ∧
    (∀ k, k ≠ "name" →
      dictLookup (pv.setName n).model.metadata.labels k =
        dictLookup pv.model.metadata.labels k) := by
  refine ⟨rfl, ?_, rfl, rfl, rfl, rfl, rfl, ?_⟩
  · exact dictLookup_dictSet_self _ _ _
  · intro k hk
    exact dictLookup_dictSet_other _ _ _ _ hk

/-- Witness for C10: renaming a concrete controller updates `metadata.name`
and leaves the label under the distinct key `other` untouched. -/
theorem C10_witness :
    (pvHostEx.setName (some "w")).model.metadata.name = some "w" ∧
    dictLookup (pvHostEx.setName (some "w")).model.metadata.labels "other" =
      dictLookup pvHostEx.model.metadata.labels "other" :=
  ⟨(C10_name_setter pvHostEx (some "w")).1,
   (C10_name_setter pvHostEx (some "w")).2.2.2.2.2.2.2 "other" (by decide)⟩

/-- C4: the `type` setter rejects every value outside `VALID_VOLUME_TYPES`
(`None` included) with the `InvalidArgument` error carrying the offending
value, and returns the controller exactly as it was. -/
theorem C4_invalid_type (pv : K8sPersistentVolume) (t : Option String)
    (h : ∀ s, t = some s → s ∉ VALID_VOLUME_TYPES) :
    K8sPersistentVolume.setType pv t = (pv, some (typeErr t)) := by
  cases t with
  | none => rfl
  | some s =>
      have hs : s ∉ VALID_VOLUME_TYPES := h s rfl
      have hc : VALID_VOLUME_TYPES.contains s = false := by
        simpa using hs
      simp only [K8sPersistentVolume.setType, hc, Bool.false_eq_true, if_false]

/-- Witness for C4: assigning the ephemeral type `emptyDir` to a hostPath
volume fails with `InvalidArgument` and changes nothing. -/
theorem C4_witness :
    K8sPersistentVolume.setType pvHostEx (some "emptyDir") =
      (pvHostEx, some (typeErr (some "emptyDir"))) :=
  C4_invalid_type pvHostEx (some "emptyDir")
    (fun s hs => by injection hs with h2; subst h2; decide)

/-- C9: the constructor routes the `type` argument through the validating
setter, so omitting it (`None`) fails with the setter's own `InvalidArgument`
error, and every successfully constructed controller holds a valid active
volume type. -/
theorem C9_ctor_validates (config n : Option String) :
    K8sPersistentVolume.init config n none = .error (typeErr none) ∧
    (∀ pv : K8sPersistentVolume, (pv.setType none).2 = some (typeErr none)) ∧
    (∀ t pv, K8sPersistentVolume.init config n t = .ok pv →
      ∃ s, t = some s ∧ pv._type = some s ∧ s ∈ VALID_VOLUME_TYPES) := by
  refine ⟨rfl, fun _ => rfl, ?_⟩
  intro t pv hok
  cases t with
  | none =>
      simp [K8sPersistentVolume.init, K8sPersistentVolume.setType] at hok
  | some s =>
      by_cases hc : s ∈ VALID_VOLUME_TYPES
      · cases hl : vol_type_to_source s with
        | some src =>
            refine ⟨s, rfl, ?_, hc⟩
            simp [K8sPersistentVolume.init, K8sPersistentVolume.setType,
              hc, hl] at hok
            rw [← hok]
        | none =>
            simp [K8sPersistentVolume.init, K8sPersistentVolume.setType,
              hc, hl] at hok
      · simp [K8sPersistentVolume.init, K8sPersistentVolume.setType, hc] at hok

/-- C3 counterexample: on the controller constructed with type `hostPath`,
assigning the valid type `nfs` succeeds, yet afterwards two variant slots of
`spec` are populated (`hostPath` and `nfs`), not exactly one. -/
theorem C3_counterexample :
    ¬ (∀ (pv pv' : K8sPersistentVolume) (t : String), t ∈ VALID_VOLUME_TYPES →
        K8sPersistentVolume.setType pv (some t) = (pv', none) →
        pv'._type = some t ∧ pv'.model.spec.slots.map Prod.fst = [t]) := by
  intro h
  have h2 := h pvHostEx ((pvHostEx.setType (some "nfs")).1) "nfs"
    (by decide) (by decide)
  exact absurd h2.2 (by decide)

/-- C3 (amended): assigning a valid type `t` succeeds, reading `type` then
returns `t`, and the slot for `t` is populated with its default source value;
when no variant slot was populated before — in particular on a freshly
initialized model — exactly one slot is populated afterwards, namely `t`'s.
(A previously populated slot of a different variant is not cleared.) -/
theorem C3_amended (pv : K8sPersistentVolume) (t : String)
    (ht : t ∈ VALID_VOLUME_TYPES) :
    ∃ pv' src,
      K8sPersistentVolume.setType pv (some t) = (pv', none) ∧
      pv'._type = some t ∧
      vol_type_to_source t = some src ∧
      dictLookup pv'.model.spec.slots t = some src ∧
      (pv.model.spec.slots = [] → pv'.model.spec.slots = [(t, src)]) := by
  have hcb : VALID_VOLUME_TYPES.contains t = true := by simpa using ht
  obtain ⟨src, hsrc⟩ : ∃ src, vol_type_to_source t = some src := by
    fin_cases ht <;> exact ⟨_, rfl⟩
  refine ⟨{ pv with
              _type := some t,
              model := { pv.model with spec :=
                { pv.model.spec with
                    slots := dictSet pv.model.spec.slots t src } } },
          src, ?_, rfl, hsrc, dictLookup_dictSet_self _ _ _, ?_⟩
  · simp [K8sPersistentVolume.setType, ht, hcb, hsrc]
  · intro h0
    rw [h0]
    rfl

/-- Witness for the amended C3: on a fresh controller, assigning `nfs`
populates exactly the `nfs` slot. -/
theorem C3_witness :
    ∃ pv' src,
      K8sPersistentVolume.setType pvFresh (some "nfs") = (pv', none) ∧
      pv'._type = some "nfs" ∧
      vol_type_to_source "nfs" = some src ∧
      dictLookup pv'.model.spec.slots "nfs" = some src ∧
      (pvFresh.model.spec.slots = [] → pv'.model.spec.slots = [("nfs", src)]) :=
  C3_amended pvFresh "nfs" (by decide)

/-- A variant that carries attribute `f` returns `v` from `f` after
`setattr(source, f, v)`. -/
theorem getField_setField (s : VolumeSource) (f : String) (v : Option String)
    (h : VolumeSource.hasField s f = true) :
    VolumeSource.getField (VolumeSource.setField s f v) f = v := by
  cases s <;> simp [VolumeSource.hasField] at h
  case hostPath p =>
    subst h
    rfl
  case awsElasticBlockStore a b =>
    rcases h with rfl | rfl <;> rfl
  case gcePersistentDisk a b =>
    rcases h with rfl | rfl <;> rfl
  case nfs a b =>
    rcases h with rfl | rfl <;> rfl

/-- A non-absent active source means the discriminator is set. -/
theorem source_isSome_type (pv : K8sPersistentVolume) (s : VolumeSource)
    (h : K8sPersistentVolume.source pv = some s) : ∃ t, pv._type = some t := by
  cases ht : pv._type with
  | none => simp [K8sPersistentVolume.source, ht] at h
  | some t => exact ⟨t, rfl⟩

/-- Writing through the active slot rewrites exactly that slot's source. -/
theorem source_updateSourceField (pv : K8sPersistentVolume) (f : String)
    (v : Option String) (t : String) (h : pv._type = some t) :
    K8sPersistentVolume.source (pv.updateSourceField f v) =
      (K8sPersistentVolume.source pv).map
        (fun s => VolumeSource.setField s f v) := by
  simp [K8sPersistentVolume.updateSourceField, h, K8sPersistentVolume.source,
    dictLookup_dictModify_self]

/-- After a field write that passed the `hasattr` guard, reading the field of
the active source gives the written value. -/
theorem write_sets_field (pv : K8sPersistentVolume) (f : String)
    (v : Option String) (h : sourceHasField pv.source f = true) :
    sourceGetField (K8sPersistentVolume.source (pv.updateSourceField f v)) f = v := by
  cases hsrc : pv.source with
  | none =>
      rw [hsrc] at h
      exact absurd h (by simp [sourceHasField])
  | some s =>
      obtain ⟨t, ht⟩ := source_isSome_type pv s hsrc
      rw [source_updateSourceField pv f v t ht, hsrc]
      have hf : VolumeSource.hasField s f = true := by
        rw [hsrc] at h
        simpa [sourceHasField] using h
      simpa [sourceGetField] using getField_setField s f v hf

/-- Witness for C9: constructing with `type=None` yields the setter's error;
the concrete hostPath construction succeeds with a valid active type. -/
theorem C9_witness :
    K8sPersistentVolume.init none (some "v") none = .error (typeErr none) ∧
    (∃ s, (some "hostPath" : Option String) = some s ∧
      pvHostEx._type = some s ∧ s ∈ VALID_VOLUME_TYPES) :=
  ⟨(C9_ctor_validates none (some "v")).1,
   (C9_ctor_validates none (some "v")).2.2 (some "hostPath") pvHostEx rfl⟩

/-- C5: each variant-specific accessor (`host_path`, `volume_id`, `pd_name`,
`fs_type`, `nfs_server`, `nfs_path`) first checks whether the active source
exposes its attribute.  If not, both reading and writing fail with
`UnsupportedForVariant` (the write changing nothing) rather than returning an
absent value; if it does, the read returns that attribute of the source and
the write succeeds, storing the value in that attribute. -/
theorem C5_variant_accessors (pv : K8sPersistentVolume) (a : PVAccessor)
    (v : Option String) :
    (sourceHasField ( K8sPersistentVolume.source pv) ( PVAccessor.field a) = false →
      K8sPersistentVolume.readAccessor pv a = .error .unsupportedForVariant ∧
      K8sPersistentVolume.writeAccessor pv a v = (pv, some .unsupportedForVariant)) ∧
    (sourceHasField ( K8sPersistentVolume.source pv) ( PVAccessor.field a) = true →
      K8sPersistentVolume.readAccessor pv a =
        .ok (sourceGetField ( K8sPersistentVolume.source pv) ( PVAccessor.field a)) ∧
      ( K8sPersistentVolume.writeAccessor pv a v).2 = none ∧
      sourceGetField
        ( K8sPersistentVolume.source ( K8sPersistentVolume.writeAccessor pv a v).1)
        ( PVAccessor.field a) = v) := by
  constructor
  · intro h
    cases a <;>
      simp_all [K8sPersistentVolume.readAccessor, K8sPersistentVolume.writeAccessor,
        K8sPersistentVolume.host_path, K8sPersistentVolume.set_host_path,
        K8sPersistentVolume.volume_id, K8sPersistentVolume.set_volume_id,
        K8sPersistentVolume.pd_name, K8sPersistentVolume.set_pd_name,
        K8sPersistentVolume.fs_type, K8sPersistentVolume.set_fs_type,
        K8sPersistentVolume.nfs_server, K8sPersistentVolume.set_nfs_server,
        K8sPersistentVolume.nfs_path, K8sPersistentVolume.set_nfs_path,
        PVAccessor.field]
  · intro h
    have key := write_sets_field pv ( PVAccessor.field a) v h
    cases a <;>
      simp_all [K8sPersistentVolume.readAccessor, K8sPersistentVolume.writeAccessor,
        K8sPersistentVolume.host_path, K8sPersistentVolume.set_host_path,
        K8sPersistentVolume.volume_id, K8sPersistentVolume.set_volume_id,
        K8sPersistentVolume.pd_name, K8sPersistentVolume.set_pd_name,
        K8sPersistentVolume.fs_type, K8sPersistentVolume.set_fs_type,
        K8sPersistentVolume.nfs_server, K8sPersistentVolume.set_nfs_server,
        K8sPersistentVolume.nfs_path, K8sPersistentVolume.set_nfs_path,
        PVAccessor.field]

/-- Witness for C5 on the `nfs` controller: `volume_id` is refused with
`UnsupportedForVariant` for both read and write, while `nfs_server` reads the
(unset) server and a write stores the given value. -/
theorem C5_witness :
    K8sPersistentVolume.readAccessor pvNfsEx .volume_id =
      .error .unsupportedForVariant ∧
    K8sPersistentVolume.writeAccessor pvNfsEx .volume_id (some "x") =
      (pvNfsEx, some .unsupportedForVariant) ∧
    K8sPersistentVolume.readAccessor pvNfsEx .nfs_server = .ok none ∧
    sourceGetField
      ( K8sPersistentVolume.source
        ( K8sPersistentVolume.writeAccessor pvNfsEx .nfs_server (some "srv")).1)
      ( PVAccessor.field .nfs_server) = some "srv" := by
  refine ⟨((C5_variant_accessors pvNfsEx .volume_id (some "x")).1 (by decide)).1,
    ((C5_variant_accessors pvNfsEx .volume_id (some "x")).1 (by decide)).2,
    ?_, ((C5_variant_accessors pvNfsEx .nfs_server (some "srv")).2 (by decide)).2.2⟩
  exact ((C5_variant_accessors pvNfsEx .nfs_server (some "srv")).2 (by decide)).1

/-- From poll index `i`, when no phase seen is `Available` and the elapsed
time first reaches the budget at check `i + k`, the loop raises there. -/
theorem wait_times_out_from (docs : Nat → PersistentVolume) (elapsed : Nat → Nat)
    (model : PersistentVolume) (i k fuel : Nat)
    (h0 : model.status.phase ≠ some "Available")
    (hs : ∀ j, (docs j).status.phase ≠ some "Available")
    (hk : READY_WAIT_TIMEOUT_SECONDS ≤ elapsed (i + k))
    (hb : ∀ j, j < k → elapsed (i + j) < READY_WAIT_TIMEOUT_SECONDS)
    (hfuel : k < fuel) :
    wait_for_available docs elapsed model i fuel =
      some (.timedOut (i + k + 1) (timedOutMsg (docs (i + k)).metadata.name)) := by
  induction k generalizing model i fuel with
  | zero =>
      cases fuel with
      | zero => omega
      | succ f =>
          have hk' : READY_WAIT_TIMEOUT_SECONDS ≤ elapsed i := by simpa using hk
          simp [wait_for_available, h0, hk']
  | succ k ih =>
      cases fuel with
      | zero => omega
      | succ f =>
          have hb0 : elapsed i < READY_WAIT_TIMEOUT_SECONDS := by
            simpa using hb 0 (Nat.succ_pos k)
          have hnot : ¬ READY_WAIT_TIMEOUT_SECONDS ≤ elapsed i :=
            Nat.not_le.mpr hb0
          have harith : i + 1 + k = i + (k + 1) := by omega
          have step := ih (docs i) (i + 1) f (hs i)
            (by rw [harith]; exact hk)
            (fun j hj => by
              have := hb (j + 1) (by omega)
              rwa [show i + (j + 1) = i + 1 + j from by omega] at this)
            (by omega)
          rw [harith] at step
          simpa [wait_for_available, h0, hnot] using step

/-- C1: against a server that never reports phase `Available`, the loop
raises `TimedOut` exactly at the first poll whose observed elapsed time
reaches or exceeds the 60-second budget (`k` being that poll's index), and
the error message carries the resource's name as the server last reported
it. -/
theorem C1_timeout (docs : Nat → PersistentVolume) (elapsed : Nat → Nat)
    (model : PersistentVolume) (k fuel : Nat)
    (h0 : model.status.phase ≠ some "Available")
    (hs : ∀ j, (docs j).status.phase ≠ some "Available")
    (hk : READY_WAIT_TIMEOUT_SECONDS ≤ elapsed k)
    (hb : ∀ j, j < k → elapsed j < READY_WAIT_TIMEOUT_SECONDS)
    (hfuel : k < fuel) :
    wait_for_available docs elapsed model 0 fuel =
      some (.timedOut (k + 1) (timedOutMsg (docs k).metadata.name)) ∧
    timedOutMsg (docs k).metadata.name =
      "Timed out waiting on readiness of PersistentVolume: [ " ++
        formatOpt (docs k).metadata.name ++ " ]" := by
  constructor
  · have h := wait_times_out_from docs elapsed model 0 k fuel h0 hs
      (by simpa using hk) (fun j hj => by simpa using hb j hj) hfuel
    simpa using h
  · rfl

/-- Witness for C1: with the clock advancing 30 seconds per poll against an
ever-`Pending` server, the loop times out at its third poll — the first whose
elapsed time (60) reaches the budget — naming the volume `pv0`. -/
theorem C1_witness :
    wait_for_available (fun _ => pendingPV) (fun i => 30 * i) pendingPV 0 4 =
      some (.timedOut 3 (timedOutMsg (some "pv0"))) := by
  have h := (C1_timeout (fun _ => pendingPV) (fun i => 30 * i) pendingPV 2 4
    (by decide)
    (fun _ => by exact (by decide : pendingPV.status.phase ≠ some "Available"))
    (by decide) (by decide) (by decide)).1
  simpa [pendingPV] using h

/-- From poll index `i`: the local phase is not `Available`, the next `N`
fetches are not `Available` either, the fetch after them is, and every
elapsed time observed up to it stays below the budget — then the loop hands
back success after those `N + 1` fetches with the first `Available` model. -/
theorem wait_succeeds_from (docs : Nat → PersistentVolume) (elapsed : Nat → Nat)
    (model : PersistentVolume) (i N fuel : Nat)
    (h0 : model.status.phase ≠ some "Available")
    (hpend : ∀ j, j < N → (docs (i + j)).status.phase ≠ some "Available")
    (havail : (docs (i + N)).status.phase = some "Available")
    (helapsed : ∀ j, j ≤ N → elapsed (i + j) < READY_WAIT_TIMEOUT_SECONDS)
    (hfuel : N + 1 < fuel) :
    wait_for_available docs elapsed model i fuel =
      some (.success (i + N + 1) (docs (i + N))) := by
  induction N generalizing model i fuel with
  | zero =>
      obtain ⟨f, rfl⟩ : ∃ f, fuel = f + 2 := ⟨fuel - 2, by omega⟩
      have hp : (docs i).status.phase = some "Available" := by simpa using havail
      have he : ¬ READY_WAIT_TIMEOUT_SECONDS ≤ elapsed i :=
        Nat.not_le.mpr (by simpa using helapsed 0 (Nat.le_refl 0))
      simp [wait_for_available, h0, he, hp]
  | succ N ih =>
      cases fuel with
      | zero => omega
      | succ f =>
          have hp0 : (docs i).status.phase ≠ some "Available" := by
            simpa using hpend 0 (Nat.succ_pos N)
          have he : ¬ READY_WAIT_TIMEOUT_SECONDS ≤ elapsed i :=
            Nat.not_le.mpr (by simpa using helapsed 0 (by omega))
          have harith : i + 1 + N = i + (N + 1) := by omega
          have step := ih (docs i) (i + 1) f hp0
            (fun j hj => by
              have := hpend (j + 1) (by omega)
              rwa [show i + (j + 1) = i + 1 + j from by omega] at this)
            (by rw [harith]; exact havail)
            (fun j hj => by
              have := helapsed (j + 1) (by omega)
              rwa [show i + (j + 1) = i + 1 + j from by omega] at this)
            (by omega)
          rw [harith] at step
          simpa [wait_for_available, h0, he] using step

/-- C2: against a server reporting phase `Pending` for the first `N` polls
and `Available` from then on, with every observed elapsed time below the
60-second budget, the loop returns control successfully after exactly `N + 1`
polls, i.e. as soon as the fetched phase is `Available`. -/
theorem C2_success (docs : Nat → PersistentVolume) (elapsed : Nat → Nat)
    (model : PersistentVolume) (N fuel : Nat)
    (h0 : model.status.phase ≠ some "Available")
    (hpend : ∀ j, j < N → (docs j).status.phase = some "Pending")
    (havail : ∀ j, N ≤ j → (docs j).status.phase = some "Available")
    (helapsed : ∀ j, j ≤ N → elapsed j < READY_WAIT_TIMEOUT_SECONDS)
    (hfuel : N + 1 < fuel) :
    wait_for_available docs elapsed model 0 fuel =
      some (.success (N + 1) (docs N)) := by
  have h := wait_succeeds_from docs elapsed model 0 N fuel h0
    (fun j hj => by
      rw [Nat.zero_add, hpend j hj]
      simp)
    (by rw [Nat.zero_add]; exact havail N (Nat.le_refl N))
    (fun j hj => by rw [Nat.zero_add]; exact helapsed j hj)
    hfuel
  simpa using h

/-- Witness for C2: one `Pending` response then `Available`, clock at a
constant 10 seconds — the loop succeeds at its second poll with the
`Available` document. -/
theorem C2_witness :
    wait_for_available (fun i => if i = 0 then pendingPV else availPV)
      (fun _ => 10) pendingPV 0 3 = some (.success 2 availPV) := by
  have h := C2_success (fun i => if i = 0 then pendingPV else availPV)
    (fun _ => 10) pendingPV 1 3 (by decide)
    (fun j hj => by
      have hj0 : j = 0 := by omega
      subst hj0
      decide)
    (fun j hj => by
      have hj0 : ¬ j = 0 := by omega
      simp only [if_neg hj0]
      decide)
    (fun _ _ => by
      exact (by decide : (10 : Nat) < READY_WAIT_TIMEOUT_SECONDS))
    (by decide)
  simpa using h

end K8sPy
